import Mathlib

/-!
Verification of the voice-to-text coordination core.

Shallow embedding of the repository's three components:
* `DeepgramService` (the transcription channel wrapping a WebSocket),
* `AudioCaptureService` (microphone capture),
* the `useVoiceToText` hook (the session coordinator holding the
  presentation-facing state snapshot and the event handlers).

Pure state: each handler of the hook is a function
`VoiceToTextState → VoiceToTextState` (the `setState` updater bodies,
which are pure).  Numbers that are only passed through (confidence,
word timings) are modelled as `Int`; object identity of freshly
allocated platform objects (media streams, audio contexts) is modelled
by a natural-number id supplied by the environment.
-/

/-- One decoded message from Deepgram, mirroring the `TranscriptionResult`
interface of the service module (word timing numbers as `Int`, only
carried through, never computed on). -/
structure Word where
  word : String
  start : Int
  stop : Int
  confidence : Int
deriving DecidableEq, Repr

structure TranscriptionResult where
  transcript : String
  isFinal : Bool
  confidence : Int
  words : Option (List Word)
deriving DecidableEq, Repr

/-- The presentation-facing state snapshot of the `useVoiceToText` hook
(`VoiceToTextState`).  `permissionStatus` is the string of the
`PermissionState`, `none` for `null`. -/
structure VoiceToTextState where
  isRecording : Bool
  isConnected : Bool
  isInitialized : Bool
  transcript : String
  interimTranscript : String
  error : Option String
  permissionStatus : Option String
deriving DecidableEq, Repr

/-- The initial state of the hook (`useState` initializer). -/
def initialVoiceState : VoiceToTextState :=
  { isRecording := false
    isConnected := false
    isInitialized := false
    transcript := ""
    interimTranscript := ""
    error := none
    permissionStatus := none }

/-- The `onTranscript` handler installed by `startRecording`: on a final
result the fragment is appended to the accumulated transcript (space
joined; an empty accumulated transcript is replaced outright) and the
interim transcript is cleared; on an interim result the interim
transcript is replaced with the fragment. -/
def onTranscriptStep (result : TranscriptionResult) (prev : VoiceToTextState) :
    VoiceToTextState :=
  if result.isFinal then
    let newTranscript :=
      if prev.transcript ≠ "" then prev.transcript ++ " " ++ result.transcript
      else result.transcript
    { prev with transcript := newTranscript, interimTranscript := "" }
  else
    { prev with interimTranscript := result.transcript }

/-- The `onOpen` handler installed by `startRecording`: marks connected,
starts audio capture, marks recording. -/
def onOpenStep (prev : VoiceToTextState) : VoiceToTextState :=
  { prev with isConnected := true, isRecording := true }

/-- The `onError` handler installed by `startRecording`: records the error
message and forces the recording/connected flags false. -/
def onErrorStep (message : String) (prev : VoiceToTextState) : VoiceToTextState :=
  { prev with error := some message, isRecording := false, isConnected := false }

/-- The `onClose` handler installed by `startRecording`: forces the
connected/recording flags false and touches nothing else. -/
def onCloseStep (prev : VoiceToTextState) : VoiceToTextState :=
  { prev with isConnected := false, isRecording := false }

/-- The synchronous part of the hook's `startRecording` action.
`audioReady` / `deepgramReady` say whether `audioServiceRef.current` /
`deepgramServiceRef.current` are non-null; `apiKey` is the credential
prop (`""` models a missing credential, the only falsy string).  The
guards fire in source order; when both pass the state is prepared
(error cleared, interim transcript cleared) before the channel connect
is issued. -/
def startRecordingStep (audioReady deepgramReady : Bool) (apiKey : String)
    (prev : VoiceToTextState) : VoiceToTextState :=
  if ¬ (audioReady ∧ deepgramReady) then
    { prev with error := some "Services not initialized. Please initialize first." }
  else if apiKey = "" then
    { prev with error := some "Deepgram API key is required." }
  else
    { prev with error := none, interimTranscript := "" }

/-- The hook's `stopRecording` action (its `setState` updater): forces the
recording/connected flags false and clears the interim transcript. -/
def stopRecordingStep (prev : VoiceToTextState) : VoiceToTextState :=
  { prev with isRecording := false, isConnected := false, interimTranscript := "" }

/-- The hook's `clearTranscript` action. -/
def clearTranscriptStep (prev : VoiceToTextState) : VoiceToTextState :=
  { prev with transcript := "", interimTranscript := "" }

/-- Folding a whole arrival-ordered sequence of `onTranscript` events into
the state. -/
def processTranscripts (evs : List TranscriptionResult) (s : VoiceToTextState) :
    VoiceToTextState :=
  evs.foldl (fun st r => onTranscriptStep r st) s

/-- The fragments of the final-flagged events of a sequence, in arrival
order. -/
def finalFragments (evs : List TranscriptionResult) : List String :=
  evs.filterMap (fun r => if r.isFinal then some r.transcript else none)

/-- Joining fragments with single spaces, the shape the spec describes. -/
def spaceJoin : List String → String
  | [] => ""
  | [f] => f
  | f :: g :: rest => f ++ " " ++ spaceJoin (g :: rest)

/-- The transcript-merging step of a single final fragment, exactly the
ternary of the `onTranscript` handler. -/
def appendFinal (acc f : String) : String :=
  if acc ≠ "" then acc ++ " " ++ f else f

/-! ## DeepgramService (the transcription channel) -/

/-- One `alternatives` entry of an inbound `Results` frame; optional
fields are `Option` (absent or falsy-by-absence). -/
structure ResultAlternative where
  transcript : Option String
  confidence : Option Int
  words : Option (List Word)
deriving DecidableEq, Repr

/-- The shape of one inbound WebSocket frame after the decoder's
`JSON.parse` attempt.  `malformed` is an unparseable frame; `other` is
parsed JSON whose `type` is neither `"Results"` nor `"Error"`;
`results` carries `channel.alternatives` (`none` when `channel` or
`alternatives` is missing) and the optional `is_final` flag;
`errorFrame` carries the optional `message`. -/
inductive Frame where
  | malformed : Frame
  | other : Frame
  | results (alternatives : Option (List ResultAlternative)) (is_final : Option Bool) : Frame
  | errorFrame (message : Option String) : Frame
deriving DecidableEq, Repr

/-- An outward effect of the channel: a handler invocation. -/
inductive ChannelEvent where
  | transcriptEvent (r : TranscriptionResult) : ChannelEvent
  | errorEvent (message : String) : ChannelEvent
deriving DecidableEq, Repr

/-- `DeepgramService.handleMessage` as the list of handler invocations a
frame produces.  A `Results` frame with at least one alternative builds
a `TranscriptionResult` (`transcript` defaulted to `""`, `is_final` to
`false`, `confidence` to `0`) and invokes `onTranscript` only when the
transcript is non-empty; an `Error` frame invokes `onError` with the
message (defaulted to `"Deepgram error"`); everything else, malformed
frames included, produces nothing and raises nothing. -/
def handleMessage : Frame → List ChannelEvent
  | .malformed => []
  | .other => []
  | .results alternatives is_final =>
      match alternatives with
      | some (alternative :: _) =>
          let result : TranscriptionResult :=
            { transcript := alternative.transcript.getD ""
              isFinal := is_final.getD false
              confidence := alternative.confidence.getD 0
              words := alternative.words }
          if result.transcript ≠ "" then [.transcriptEvent result] else []
      | _ => []
  | .errorFrame message => [.errorEvent (message.getD "Deepgram error")]

/-- The `DeepgramService` connection state: whether a socket object is
held, whether its `readyState` is `OPEN`, the `isConnected` flag, and
whether handlers have been installed. -/
structure ChannelState where
  hasSocket : Bool
  socketOpen : Bool
  isConnected : Bool
  handlersSet : Bool
deriving DecidableEq, Repr

/-- `DeepgramService.connect`: when already connected it warns and
returns immediately (the returned `Bool` reports whether a new socket
was opened); otherwise it installs the handlers and constructs a new
socket (not yet open — `isConnected` flips only in `onopen`). -/
def connectStep (st : ChannelState) : ChannelState × Bool :=
  if st.isConnected then (st, false)
  else ({ st with handlersSet := true, hasSocket := true, socketOpen := false }, true)

/-- `DeepgramService.disconnect`: when a socket is held, a `CloseStream`
control message is sent if the socket is open (the returned `Bool`),
the socket is closed and dropped; in every case `isConnected` ends
false. -/
def disconnectStep (st : ChannelState) : ChannelState × Bool :=
  if st.hasSocket then
    ({ st with hasSocket := false, socketOpen := false, isConnected := false },
     st.socketOpen)
  else ({ st with isConnected := false }, false)

/-! ## AudioCaptureService -/

/-- The capture-device state of `AudioCaptureService`: held media stream
and audio context (object identity as a `Nat` id, `none` when the field
is `null`). -/
structure AudioCaptureState where
  mediaStream : Option Nat
  audioContext : Option Nat
deriving DecidableEq, Repr

/-- The environment's answer to one `getUserMedia` request. -/
inductive MediaOutcome where
  | granted (streamId : Nat) : MediaOutcome
  | notAllowed : MediaOutcome
  | notFound : MediaOutcome
  | notReadable : MediaOutcome
  | otherFailure (message : String) : MediaOutcome
deriving DecidableEq, Repr

/-- `AudioCaptureService.initialize`: checks environment support, then
unconditionally requests the microphone and, on grant, stores the fresh
media stream and constructs a fresh `AudioContext` (there is no
already-initialized guard).  Failures are mapped to the user-facing
messages of `handlePermissionError`.  The `Bool` of the success value
records that `getUserMedia` was requested on this call. -/
def audioInitialize (mediaDevicesSupported getUserMediaSupported : Bool)
    (outcome : MediaOutcome) (freshContextId : Nat) (s : AudioCaptureState) :
    Except String (AudioCaptureState × Bool) :=
  if ¬ mediaDevicesSupported then
    .error ("Media devices not supported. This may be a permissions issue on macOS. " ++
      "Please ensure microphone access is granted in System Preferences > " ++
      "Security & Privacy > Privacy > Microphone.")
  else if ¬ getUserMediaSupported then
    .error "getUserMedia not supported in this environment."
  else
    match outcome with
    | .granted streamId =>
        .ok ({ s with mediaStream := some streamId,
                      audioContext := some freshContextId }, true)
    | .notAllowed =>
        .error ("Microphone permission denied. " ++
          "Please allow microphone access in your system settings.")
    | .notFound =>
        .error "No microphone found. Please connect a microphone and try again."
    | .notReadable =>
        .error ("Microphone is in use by another application. " ++
          "Please close other apps using the microphone.")
    | .otherFailure message => .error ("Microphone error: " ++ message)

/-! ## Theorems -/

/-- C3: an interim-flagged `onTranscript` event replaces the interim
transcript with the event's fragment and leaves every other field, the
accumulated transcript included, unchanged; a final-flagged event sets
the interim transcript to empty. -/
theorem onTranscript_interim_replace_final_clear
    (s : VoiceToTextState) (t : String) (conf : Int) (w : Option (List Word)) :
    onTranscriptStep ⟨t, false, conf, w⟩ s = { s with interimTranscript := t }
    ∧ (onTranscriptStep ⟨t, true, conf, w⟩ s).interimTranscript = "" := by
  constructor
  · simp [onTranscriptStep]
  · simp [onTranscriptStep]

/-- C4: processing an `onError` event in any state forces the
recording/connected flags false, records the error's message, and
leaves the accumulated transcript untouched. -/
theorem onError_forces_flags_keeps_transcript
    (s : VoiceToTextState) (message : String) :
    (onErrorStep message s).isRecording = false
    ∧ (onErrorStep message s).isConnected = false
    ∧ (onErrorStep message s).error = some message
    ∧ (onErrorStep message s).transcript = s.transcript := by
  refine ⟨rfl, rfl, rfl, rfl⟩

/-- C5: an unexpected `onClose` in a streaming state with no error leaves
the error `null` while forcing the recording/connected flags false —
the close is not treated as a fault. -/
theorem onClose_not_a_fault (s : VoiceToTextState)
    (_hr : s.isRecording = true) (_hc : s.isConnected = true)
    (he : s.error = none) :
    (onCloseStep s).isRecording = false
    ∧ (onCloseStep s).isConnected = false
    ∧ (onCloseStep s).error = none := by
  exact ⟨rfl, rfl, he⟩

/-- Witness for C5 at a concrete streaming state. -/
theorem onClose_not_a_fault_witness :
    (onCloseStep ⟨true, true, true, "hello", "wor", none, some "granted"⟩).isRecording = false
    ∧ (onCloseStep ⟨true, true, true, "hello", "wor", none, some "granted"⟩).isConnected = false
    ∧ (onCloseStep ⟨true, true, true, "hello", "wor", none, some "granted"⟩).error = none :=
  onClose_not_a_fault ⟨true, true, true, "hello", "wor", none, some "granted"⟩ rfl rfl rfl

/-- C8: a second `connect` while already connected is a no-op — the
channel state is unchanged and no new socket is opened (hence no
handler can be invoked by this call), so at most one connection is open
at a time. -/
theorem connect_when_connected_noop (st : ChannelState)
    (h : st.isConnected = true) :
    connectStep st = (st, false) := by
  simp [connectStep, h]

/-- Witness for C8 at a concrete connected channel state. -/
theorem connect_when_connected_noop_witness :
    connectStep ⟨true, true, true, true⟩ = (⟨true, true, true, true⟩, false) :=
  connect_when_connected_noop ⟨true, true, true, true⟩ rfl

/-- C6: the decoder invokes `onTranscript` exactly for `Results` frames
with at least one alternative whose transcript defaults to a non-empty
string; `Error` frames with a provided message invoke `onError` with
that message; malformed frames and frames of any other type produce no
handler invocation and raise nothing. -/
theorem handleMessage_dispatch (f : Frame) :
    ((∃ r, ChannelEvent.transcriptEvent r ∈ handleMessage f) ↔
      (∃ a rest is_final, f = .results (some (a :: rest)) is_final
        ∧ a.transcript.getD "" ≠ ""))
    ∧ (∀ m, handleMessage (.errorFrame (some m)) = [.errorEvent m])
    ∧ handleMessage .malformed = [] ∧ handleMessage .other = [] := by
  refine ⟨⟨?_, ?_⟩, fun m => rfl, rfl, rfl⟩
  · rintro ⟨r, hr⟩
    match f with
    | .malformed => simp [handleMessage] at hr
    | .other => simp [handleMessage] at hr
    | .errorFrame m => simp [handleMessage] at hr
    | .results none is_final => simp [handleMessage] at hr
    | .results (some []) is_final => simp [handleMessage] at hr
    | .results (some (a :: rest)) is_final =>
        refine ⟨a, rest, is_final, rfl, ?_⟩
        by_contra hemp
        simp [handleMessage, hemp] at hr
  · rintro ⟨a, rest, is_final, rfl, hne⟩
    refine ⟨⟨a.transcript.getD "", is_final.getD false, a.confidence.getD 0, a.words⟩, ?_⟩
    simp [handleMessage, hne]

/-- C10: a `Results` frame with a leading alternative carrying a
non-empty transcript and no `is_final` field decodes to a result with
`isFinal = false` and confidence defaulted through `Option.getD 0`;
the coordinator's handler then treats it as interim: it replaces the
interim transcript and leaves every other field, the accumulated
transcript included, unchanged. -/
theorem results_without_isFinal_is_interim
    (a : ResultAlternative) (rest : List ResultAlternative)
    (s : VoiceToTextState) (t : String)
    (ht : a.transcript = some t) (hne : t ≠ "") :
    handleMessage (.results (some (a :: rest)) none) =
      [.transcriptEvent ⟨t, false, a.confidence.getD 0, a.words⟩]
    ∧ onTranscriptStep ⟨t, false, a.confidence.getD 0, a.words⟩ s =
      { s with interimTranscript := t } := by
  constructor
  · simp [handleMessage, ht, hne]
  · simp [onTranscriptStep]

/-- Witness for C10 at a concrete frame: alternative with transcript
field present and non-empty, confidence and `is_final` absent. -/
theorem results_without_isFinal_is_interim_witness :
    handleMessage (.results (some [⟨some "hi", none, none⟩]) none) =
      [.transcriptEvent ⟨"hi", false, (none : Option Int).getD 0, none⟩]
    ∧ onTranscriptStep ⟨"hi", false, (none : Option Int).getD 0, none⟩ initialVoiceState =
      { initialVoiceState with interimTranscript := "hi" } :=
  results_without_isFinal_is_interim ⟨some "hi", none, none⟩ [] initialVoiceState "hi"
    rfl (by decide)

/-- A string with a space spliced into its middle is never empty. -/
theorem append_space_ne_empty (a b : String) : a ++ " " ++ b ≠ "" := by
  intro h
  have hlen := congrArg String.length h
  simp [String.length_append] at hlen
  exact absurd hlen.1.2 (by decide)

/-- The accumulated transcript after a whole event sequence is the fold of
`appendFinal` over the final fragments only: interim events never touch
it. -/
theorem processTranscripts_transcript (evs : List TranscriptionResult)
    (s : VoiceToTextState) :
    (processTranscripts evs s).transcript =
      (finalFragments evs).foldl appendFinal s.transcript := by
  induction evs generalizing s with
  | nil => rfl
  | cons r rest ih =>
      have hstep : processTranscripts (r :: rest) s =
          processTranscripts rest (onTranscriptStep r s) := rfl
      by_cases hf : r.isFinal
      · have htr : (onTranscriptStep r s).transcript =
            appendFinal s.transcript r.transcript := by
          simp [onTranscriptStep, hf, appendFinal]
        have hfr : finalFragments (r :: rest) =
            r.transcript :: finalFragments rest := by
          simp [finalFragments, hf]
        rw [hstep, ih, htr, hfr, List.foldl_cons]
      · have htr : (onTranscriptStep r s).transcript = s.transcript := by
          simp [onTranscriptStep, hf]
        have hfr : finalFragments (r :: rest) = finalFragments rest := by
          simp [finalFragments, hf]
        rw [hstep, ih, htr, hfr]

/-- Pushing an already-joined head through `spaceJoin`. -/
theorem spaceJoin_cons_append (a f : String) (rest : List String) :
    spaceJoin ((a ++ " " ++ f) :: rest) = a ++ " " ++ spaceJoin (f :: rest) := by
  cases rest with
  | nil => rfl
  | cons r rs => simp [spaceJoin, String.append_assoc]

/-- Folding `appendFinal` from a non-empty accumulator produces the
space-join headed by that accumulator. -/
theorem foldl_appendFinal_ne_empty (fs : List String) (acc : String)
    (h : acc ≠ "") : fs.foldl appendFinal acc = spaceJoin (acc :: fs) := by
  induction fs generalizing acc with
  | nil => rfl
  | cons f rest ih =>
      have h1 : appendFinal acc f = acc ++ " " ++ f := by
        simp [appendFinal, h]
      calc (f :: rest).foldl appendFinal acc
          = rest.foldl appendFinal (appendFinal acc f) := rfl
        _ = rest.foldl appendFinal (acc ++ " " ++ f) := by rw [h1]
        _ = spaceJoin ((acc ++ " " ++ f) :: rest) :=
            ih (acc ++ " " ++ f) (append_space_ne_empty acc f)
        _ = acc ++ " " ++ spaceJoin (f :: rest) := spaceJoin_cons_append acc f rest
        _ = spaceJoin (acc :: f :: rest) := rfl

/-- C1: for any arrival-ordered sequence of `onTranscript` events whose
final-flagged fragments are all non-empty, starting from an empty
accumulated transcript, processing the whole sequence leaves the
accumulated transcript equal to the final fragments joined by single
spaces, whatever interim events are interleaved. -/
theorem accumulated_transcript_is_spaceJoin (evs : List TranscriptionResult)
    (s : VoiceToTextState) (hs : s.transcript = "")
    (hne : ∀ t ∈ finalFragments evs, t ≠ "") :
    (processTranscripts evs s).transcript = spaceJoin (finalFragments evs) := by
  rw [processTranscripts_transcript, hs]
  cases hfr : finalFragments evs with
  | nil => rfl
  | cons f rest =>
      have hf : f ≠ "" := hne f (by rw [hfr]; exact List.mem_cons_self f rest)
      have h0 : appendFinal "" f = f := by simp [appendFinal]
      calc (f :: rest).foldl appendFinal ""
          = rest.foldl appendFinal (appendFinal "" f) := rfl
        _ = rest.foldl appendFinal f := by rw [h0]
        _ = spaceJoin (f :: rest) := foldl_appendFinal_ne_empty rest f hf

/-- Witness for C1: two interim events interleaved with the finals
"hello" and "world", from the initial state. -/
theorem accumulated_transcript_is_spaceJoin_witness :
    (processTranscripts
      [⟨"he", false, 0, none⟩, ⟨"hello", true, 1, none⟩,
       ⟨"wor", false, 0, none⟩, ⟨"world", true, 1, none⟩]
      initialVoiceState).transcript = "hello world" :=
  (accumulated_transcript_is_spaceJoin
    [⟨"he", false, 0, none⟩, ⟨"hello", true, 1, none⟩,
     ⟨"wor", false, 0, none⟩, ⟨"world", true, 1, none⟩]
    initialVoiceState rfl (by decide)).trans (by decide)

/-- Counterexample to C2 as stated: with no API key set and the service
refs still null (the services were never initialized — `initialize`
only constructs the Deepgram service when a key is present), the first
guard of `startRecording` fires, so the error is the services message,
not the API-key message.  The action is still rejected without
starting. -/
theorem startRecording_no_key_uninitialized_other_message :
    (startRecordingStep false false "" initialVoiceState).error
        ≠ some "Deepgram API key is required."
    ∧ (startRecordingStep false false "" initialVoiceState).error
        = some "Services not initialized. Please initialize first."
    ∧ (startRecordingStep false false "" initialVoiceState).isRecording = false := by
  refine ⟨by decide, rfl, rfl⟩

/-- C2 amended: when the service refs are set (so the first guard
passes) and the API key is empty, `startRecording` is rejected with
exactly the message "Deepgram API key is required." and the recording
flag stays false. -/
theorem startRecording_no_key_rejected (s : VoiceToTextState) (apiKey : String)
    (hk : apiKey = "") (hr : s.isRecording = false) :
    (startRecordingStep true true apiKey s).error
        = some "Deepgram API key is required."
    ∧ (startRecordingStep true true apiKey s).isRecording = false := by
  subst hk
  exact ⟨rfl, hr⟩

/-- Witness for amended C2 at a concrete ready, not-recording state. -/
theorem startRecording_no_key_rejected_witness :
    (startRecordingStep true true "" ⟨false, false, true, "t", "", none, some "granted"⟩).error
        = some "Deepgram API key is required."
    ∧ (startRecordingStep true true ""
        ⟨false, false, true, "t", "", none, some "granted"⟩).isRecording = false :=
  startRecording_no_key_rejected ⟨false, false, true, "t", "", none, some "granted"⟩ "" rfl rfl

/-- A reachable coordinator state that is not recording yet still holds a
non-empty interim transcript: start, channel opens, one interim result
arrives, then the remote closes unexpectedly (`onClose` does not clear
the interim transcript). -/
def notRecordingWithInterim : VoiceToTextState :=
  onCloseStep (onTranscriptStep ⟨"hel", false, 0, none⟩
    (onOpenStep (startRecordingStep true true "key" initialVoiceState)))

/-- Counterexample to C7 as stated: in the reachable not-recording,
not-connected state above, `stopRecording` does not leave the state
unchanged apart from the flags — it also clears the non-empty interim
transcript. -/
theorem stopRecording_changes_interim :
    notRecordingWithInterim.isRecording = false
    ∧ notRecordingWithInterim.isConnected = false
    ∧ notRecordingWithInterim.interimTranscript = "hel"
    ∧ stopRecordingStep notRecordingWithInterim ≠ notRecordingWithInterim := by
  refine ⟨rfl, rfl, rfl, by decide⟩

/-- C7 amended: `stopRecording` when not recording with an already-empty
interim transcript, and the channel's `disconnect` when no socket is
held and not connected, leave the state exactly unchanged (the
not-recording / not-connected flags thereby staying guaranteed); in
general `stopRecording` additionally clears the interim transcript. -/
theorem stop_disconnect_idempotent (s : VoiceToTextState) (st : ChannelState)
    (hr : s.isRecording = false) (hc : s.isConnected = false)
    (hi : s.interimTranscript = "")
    (hsk : st.hasSocket = false) (hcc : st.isConnected = false) :
    stopRecordingStep s = s ∧ disconnectStep st = (st, false) := by
  constructor
  · cases s
    simp_all [stopRecordingStep]
  · cases st
    simp_all [disconnectStep]

/-- Witness for amended C7 at concrete quiescent states. -/
theorem stop_disconnect_idempotent_witness :
    stopRecordingStep ⟨false, false, true, "t", "", none, none⟩
        = ⟨false, false, true, "t", "", none, none⟩
    ∧ disconnectStep ⟨false, false, false, true⟩ = (⟨false, false, false, true⟩, false) :=
  stop_disconnect_idempotent ⟨false, false, true, "t", "", none, none⟩
    ⟨false, false, false, true⟩ rfl rfl rfl rfl rfl

/-- An already-initialized capture state (stream and context objects with
identity 0). -/
def initializedCapture : AudioCaptureState :=
  { mediaStream := some 0, audioContext := some 0 }

/-- Counterexample to C9 as stated: `initialize` has no
already-initialized guard — called again on an initialized service in a
granting environment it requests the microphone again and stores a
freshly constructed media stream and `AudioContext` (fresh objects are
distinct from the ones held, here id 1 versus id 0), so the
capture-device state changes: it is not a no-op. -/
theorem audioInitialize_not_noop :
    audioInitialize true true (.granted 1) 1 initializedCapture
        = .ok ({ mediaStream := some 1, audioContext := some 1 }, true)
    ∧ ({ mediaStream := some 1, audioContext := some 1 } : AudioCaptureState)
        ≠ initializedCapture := by
  refine ⟨rfl, by decide⟩

/-- C9 amended: calling `initialize` on an already-initialized
AudioSource is not guarded: it requests the device again and, when the
request is granted, returns success but replaces the stored media
stream and audio context with the freshly created ones. -/
theorem audioInitialize_reacquires (s : AudioCaptureState)
    (streamId contextId : Nat) (_h : s.mediaStream ≠ none) :
    audioInitialize true true (.granted streamId) contextId s
        = .ok ({ s with mediaStream := some streamId,
                        audioContext := some contextId }, true) := by
  rfl

/-- Witness for amended C9 at the concrete initialized state. -/
theorem audioInitialize_reacquires_witness :
    audioInitialize true true (.granted 7) 8 initializedCapture
        = .ok ({ initializedCapture with
                 mediaStream := some 7,
                 audioContext := some 8 }, true) :=
  audioInitialize_reacquires initializedCapture 7 8 (by decide)
